import Mathlib

/-!
Shallow embedding of `src/opendatapy/datapackage.py` (opendatapy).

JSON records are modelled as an inductive `Json` whose objects are
association lists in insertion order (Python dicts preserve insertion
order).  The file tree rooted at the base path is modelled as an
association list from structured paths to parsed JSON values; reading a
missing file is `FileNotFoundError`.  Fallible Python code is modelled in
`Except`: each raise site becomes an `Err` constructor recording the
information the exception carries.
-/

set_option autoImplicit false

namespace Opendatapy

/-- A JSON value.  Objects are key/value lists in insertion order; numbers
are modelled as integers (the fields the code inspects — status codes and
the `updated` timestamp — are integers). -/
inductive Json where
  | null : Json
  | bool : Bool → Json
  | num : Int → Json
  | str : String → Json
  | arr : List Json → Json
  | obj : List (String × Json) → Json

/-- Python `j == s` for a string literal `s`: true exactly when `j` is that
string (`==` between a dict/list/int and a string is `False`). -/
def Json.eqStr : Json → String → Bool
  | .str s, t => s == t
  | _, _ => false

/-- First value bound to `k`, as Python `d[k]` / `json` object access. -/
def lookupEntry {α : Type} [DecidableEq α] {β : Type} :
    List (α × β) → α → Option β
  | [], _ => none
  | (k₀, v₀) :: rest, k => if k₀ = k then some v₀ else lookupEntry rest k

/-- Python `d[k] = v`: replace the first binding of `k` in place, else
append a new binding at the end (dicts preserve insertion order). -/
def setEntry {α : Type} [DecidableEq α] {β : Type} :
    List (α × β) → α → β → List (α × β)
  | [], k, v => [(k, v)]
  | (k₀, v₀) :: rest, k, v =>
    if k₀ = k then (k₀, v) :: rest else (k₀, v₀) :: setEntry rest k v

/-- Python `d.pop(k)` without default: remove the first binding of `k`,
`none` when the key is absent (KeyError). -/
def popEntry {α : Type} [DecidableEq α] {β : Type} :
    List (α × β) → α → Option (List (α × β))
  | [], _ => none
  | (k₀, v₀) :: rest, k =>
    if k₀ = k then some rest else (popEntry rest k).map (fun l => (k₀, v₀) :: l)

/-- Object field access: `some` on an object holding the key, else `none`
(Python raises KeyError / TypeError at the call sites, recorded there). -/
def Json.lookup : Json → String → Option Json
  | .obj kvs, k => lookupEntry kvs k
  | _, _ => none

/-- Python item assignment `j[k] = v`: defined only on objects; on any
other value the source would raise TypeError, recorded at the call site. -/
def Json.setKey : Json → String → Json → Option Json
  | .obj kvs, k, v => some (.obj (setEntry kvs k v))
  | _, _, _ => none

/-- Item assignment on a value known to be an object (falls back to the
unchanged value elsewhere; only used where the object shape is already
established). -/
def Json.setKeyD (j : Json) (k : String) (v : Json) : Json :=
  (j.setKey k v).getD j

/-- Python `j.pop(k)` keeping only the shrunken object: `none` when the key
is absent or the value is not an object. -/
def Json.popKey : Json → String → Option Json
  | .obj kvs, k => (popEntry kvs k).map (fun l => .obj l)
  | _, _ => none

/-- Python truthiness of a parsed JSON value, as tested by
`if not json.load(f)["data"]` in `execute_view`. -/
def Json.falsy : Json → Bool
  | .null => true
  | .bool b => !b
  | .num n => n == 0
  | .str s => s == ""
  | .arr l => l.isEmpty
  | .obj l => l.isEmpty

/-- The errors the module can raise.  Python exception classes are mapped
to constructors carrying the information the exception records:
`notFound` is FileNotFoundError on the given path description;
`keyError` is KeyError on the named dict key; `attributeError` is an
attribute access (such as `.get`) on a value lacking it; `typeError`
covers item assignment or iteration on a value of the wrong shape;
`resourceError` is `ResourceError` and carries the offending resource
name (its `resource` attribute); `executionError` is `ExecutionError` and
carries the captured logs (its `logs` attribute; the message string is a
static literal in the source); `unsupportedProfile` is the
`NotImplementedError` naming the unrecognized profile value;
`variableNotFound` is the KeyError raised by `load_resource_by_variable`,
whose message names the variable and the configuration. -/
inductive Err where
  | notFound : String → Err
  | keyError : String → Err
  | attributeError : String → Err
  | typeError : String → Err
  | resourceError : String → Err
  | executionError : String → Err
  | unsupportedProfile : Json → Err
  | variableNotFound : String → String → Err

/-- A file path below the base path, one constructor per directory of the
layout (`resources/<name>.json`, `formats/<name>.json`, `views/<name>.json`,
`configurations/<name>.json`, `datapackage.json`). -/
inductive Path where
  | resource : String → Path
  | format : String → Path
  | view : String → Path
  | configuration : String → Path
  | datapackage : Path
deriving DecidableEq, Repr

/-- The files below the base path, already parsed: reading a present file
yields its JSON value, a missing file raises FileNotFoundError. -/
structure FS where
  files : List (Path × Json)

def FS.read (fs : FS) (p : Path) : Option Json :=
  lookupEntry fs.files p

def FS.write (fs : FS) (p : Path) (j : Json) : FS :=
  ⟨setEntry fs.files p j⟩

/-- Modelled from the spec: `TabularDataResource` lives in
`src/opendatapy/resources.py`, which is not among the sources; the spec
describes it only as "a strongly-typed tabular-resource value constructed
from the merged record" that `write_resource` "normalizes to a raw
record", so it is modelled as a wrapper around the merged record whose
`to_dict` returns that record. -/
structure TabularDataResource where
  resource : Json

def TabularDataResource.to_dict (t : TabularDataResource) : Json :=
  t.resource

/-- Return type of `load_resource`: `TabularDataResource | dict`. -/
inductive LoadedResource where
  | typed : TabularDataResource → LoadedResource
  | dict : Json → LoadedResource

/-- Argument type of `write_resource`: `TabularDataResource | dict`. -/
inductive ResourceValue where
  | typed : TabularDataResource → ResourceValue
  | dict : Json → ResourceValue

/-- The `isinstance` normalization at the top of `write_resource`. -/
def ResourceValue.toRecord : ResourceValue → Json
  | .typed t => t.to_dict
  | .dict j => j

/-- Lines 166-186 of `load_resource`: install the transient `format` field
and, in the sentinel case, replace the schema.  In the source,
`resource_json["schema"] = resource_json["format"]` makes `schema` and
`format` alias one dict, so the subsequent
`resource_json["schema"]["type"] = "format"` tags the object seen through
both keys; the model therefore stores the tagged object under both.  A
format schema that is not a dict would make that item assignment raise
TypeError. -/
def mergeFormat (fs : FS) (resource_json : Json) (format_name : Option String) :
    Except Err Json :=
  match format_name with
  | some fname =>
    match fs.read (.format fname) with
    | none => .error (.notFound ("formats/" ++ fname ++ ".json"))
    | some fmt =>
      match fmt.lookup "schema" with
      | none => .error (.keyError "schema")
      | some fmtSchema =>
        match resource_json.setKey "format" fmtSchema with
        | none => .error (.typeError "resource record does not support item assignment")
        | some r₁ =>
          match r₁.lookup "schema" with
          | none => .error (.keyError "schema")
          | some schema =>
            if schema.eqStr "inherit-from-format" then
              match fmtSchema.setKey "type" (.str "format") with
              | none => .error (.typeError "schema value does not support item assignment")
              | some tagged => .ok ((r₁.setKeyD "schema" tagged).setKeyD "format" tagged)
            else
              .ok r₁
  | none =>
    -- the hack at lines 180-186: a fixed dummy format
    match resource_json.setKey "format" (.obj [("hello", .str "world")]) with
    | none => .error (.typeError "resource record does not support item assignment")
    | some r₁ => .ok r₁

/-- Lines 188-199 of `load_resource`: either return the raw dict, or build
the typed value when the profile is one of the two recognized tags, else
raise the `NotImplementedError` naming the profile. -/
def finishLoad (resource_json : Json) (as_dict : Bool) : Except Err LoadedResource :=
  if as_dict then
    .ok (.dict resource_json)
  else
    match resource_json.lookup "profile" with
    | none => .error (.keyError "profile")
    | some p =>
      if p.eqStr "tabular-data-resource" || p.eqStr "parameter-tabular-data-resource" then
        .ok (.typed ⟨resource_json⟩)
      else
        .error (.unsupportedProfile p)

/-- `load_resource` (lines 150-201). -/
def loadResource (fs : FS) (resource_name : String) (format_name : Option String)
    (as_dict : Bool) : Except Err LoadedResource :=
  match fs.read (.resource resource_name) with
  | none => .error (.notFound ("resources/" ++ resource_name ++ ".json"))
  | some resource_json =>
    match mergeFormat fs resource_json format_name with
    | .error e => .error e
    | .ok merged => finishLoad merged as_dict

/-- Modelled from the spec: `find_by_name` lives in
`src/opendatapy/helpers.py`, which is not among the sources; the spec says
`load_resource_by_variable` "scans its `data` bindings in declared order
for the first binding whose variable name matches", so the helper returns
the first record of the list whose `name` field equals the given name. -/
def find_by_name (records : List Json) (name : String) : Option Json :=
  records.find? (fun r =>
    match r.lookup "name" with
    | some v => v.eqStr name
    | none => false)

/-- A JSON `format` binding passed on as the `format_name` argument:
`null` becomes Python `None`, which makes `load_resource` take its
no-format branch; string values name the format.  (Bindings of any other
type are outside the modelled scope.) -/
def formatNameOfJson : Json → Option String
  | .str s => some s
  | _ => none

/-- `load_resource_by_variable` (lines 204-229).  The source raises
`KeyError` with a message naming the variable and the configuration when
no binding matches; the spec calls this failure `VariableNotFoundError`,
and the model records it as `Err.variableNotFound` carrying both names. -/
def loadResourceByVariable (fs : FS) (variable_name : String)
    (configuration_name : String) (as_dict : Bool) : Except Err LoadedResource :=
  match fs.read (.configuration configuration_name) with
  | none => .error (.notFound ("configurations/" ++ configuration_name ++ ".json"))
  | some configuration =>
    match configuration.lookup "data" with
    | none => .error (.keyError "data")
    | some data =>
      match data with
      | .arr records =>
        match find_by_name records variable_name with
        | none => .error (.variableNotFound variable_name configuration_name)
        | some binding =>
          match binding.lookup "resource" with
          | none => .error (.keyError "resource")
          | some r =>
            match binding.lookup "format" with
            | none => .error (.keyError "format")
            | some f =>
              match r with
              | .str rname => loadResource fs rname (formatNameOfJson f) as_dict
              | _ => .error (.typeError "resource name is not a string")
      | _ => .error (.typeError "configuration data is not a list")

/-- `write_resource` (lines 232-262), with the two file writes made
explicit.  On an error the returned pair carries the file system as it
stands at the raise site, so "no file written yet" is visible in the
result: the record's `name` is read first (to build the path), then
`format` is popped — `KeyError` when absent — then `.get("type")` is
called on the schema — `AttributeError` when the schema is a string —
and only then is the resource file written, followed by the independent
read-modify-write of `datapackage.json` setting `updated` to the clock
value `now` (`int(time.time())`). -/
def writeResource (fs : FS) (resource : ResourceValue) (now : Int) :
    Except (Err × FS) FS :=
  let resource_json := resource.toRecord
  match resource_json.lookup "name" with
  | none => .error (.keyError "name", fs)
  | some nameJson =>
    match nameJson with
    | .str n =>
      match resource_json.popKey "format" with
      | none => .error (.keyError "format", fs)
      | some rec₁ =>
        match rec₁.lookup "schema" with
        | none => .error (.keyError "schema", fs)
        | some schema =>
          match schema with
          | .obj _ =>
            let rec₂ :=
              if (match schema.lookup "type" with
                  | some v => v.eqStr "format"
                  | none => false) then
                rec₁.setKeyD "schema" (.str "inherit-from-format")
              else
                rec₁
            let fs₁ := fs.write (.resource n) rec₂
            match fs₁.read .datapackage with
            | none => .error (.notFound "datapackage.json", fs₁)
            | some dp =>
              match dp.setKey "updated" (.num now) with
              | none => .error (.typeError "datapackage record does not support item assignment", fs₁)
              | some dp₂ => .ok (fs₁.write .datapackage dp₂)
          | _ => .error (.attributeError "get", fs)
    | _ => .error (.typeError "resource name is not a string", fs)

/-- Python `str.strip()` with no argument: drop whitespace from both ends. -/
def pyStrip (s : String) : String :=
  ⟨((s.data.dropWhile Char.isWhitespace).reverse.dropWhile
      Char.isWhitespace).reverse⟩

/-- Outcome of `container.wait()` together with `container.logs()`: the
terminal status code and the captured combined output (already decoded). -/
structure ContainerResult where
  statusCode : Int
  logs : String

/-- One `docker_client.containers.run` invocation: the image and the
environment passed to it (the volume mount and user are fixed by the
source and carry no information the claims depend on). -/
structure RunCall where
  image : String
  environment : List (String × String)

/-- `execute_container` (lines 89-115): the container runtime is the
function from the run call to the container's terminal result.  The
`ExecutionError` message in the source is a static literal (the f-prefix
is missing), so only the `logs` attribute is modelled. -/
def executeContainer (runtime : RunCall → ContainerResult)
    (container_name : String) (environment : List (String × String)) :
    Except Err String :=
  let result := runtime ⟨container_name, environment⟩
  if result.statusCode ≠ 0 then
    .error (.executionError (pyStrip result.logs))
  else
    .ok (pyStrip result.logs)

/-- The fail-fast loop of `execute_view` (lines 62-73): read each declared
resource record in order and raise `ResourceError` at the first falsy
`data` field. -/
def checkResources (fs : FS) : List Json → Except Err Unit
  | [] => .ok ()
  | .str name :: rest =>
    match fs.read (.resource name) with
    | none => .error (.notFound ("resources/" ++ name ++ ".json"))
    | some r =>
      match r.lookup "data" with
      | none => .error (.keyError "data")
      | some d =>
        if d.falsy then .error (.resourceError name)
        else checkResources fs rest
  | _ :: _ => .error (.typeError "resource name is not a string")

/-- `execute_view` (lines 53-86).  The first component records the run
calls issued to the container runtime ,so "the container is never
started" is observable; the second is the returned logs or the raised
error. -/
def executeView (fs : FS) (runtime : RunCall → ContainerResult)
    (view_name : String) : List RunCall × Except Err String :=
  match fs.read (.view view_name) with
  | none => ([], .error (.notFound ("views/" ++ view_name ++ ".json")))
  | some view =>
    match view.lookup "resources" with
    | none => ([], .error (.keyError "resources"))
    | some rs =>
      match rs with
      | .arr items =>
        match checkResources fs items with
        | .error e => ([], .error e)
        | .ok _ =>
          match view.lookup "container" with
          | none => ([], .error (.keyError "container"))
          | some c =>
            match c with
            | .str container_name =>
              ([⟨container_name, [("VIEW", view_name)]⟩],
               executeContainer runtime container_name [("VIEW", view_name)])
            | _ => ([], .error (.typeError "container image name is not a string"))
      | _ => ([], .error (.typeError "view resources is not a list"))

/-- The record held by a `load_resource` result, through either variant. -/
def LoadedResource.record : LoadedResource → Json
  | .typed t => t.resource
  | .dict j => j

/-- A `load_resource` result handed on to `write_resource` unchanged. -/
def LoadedResource.toValue : LoadedResource → ResourceValue
  | .typed t => .typed t
  | .dict j => .dict j

/-! ### Association-list lemmas -/

theorem lookupEntry_setEntry_self {α β : Type} [DecidableEq α]
    (l : List (α × β)) (k : α) (v : β) :
    lookupEntry (setEntry l k v) k = some v := by
  induction l with
  | nil => simp [setEntry, lookupEntry]
  | cons hd tl ih =>
    obtain ⟨k₀, v₀⟩ := hd
    by_cases h : k₀ = k <;> simp [setEntry, lookupEntry, h, ih]

theorem lookupEntry_setEntry_other {α β : Type} [DecidableEq α]
    (l : List (α × β)) (k k' : α) (v : β) (hne : k' ≠ k) :
    lookupEntry (setEntry l k v) k' = lookupEntry l k' := by
  induction l with
  | nil => simp [setEntry, lookupEntry, Ne.symm hne]
  | cons hd tl ih =>
    obtain ⟨k₀, v₀⟩ := hd
    rcases eq_or_ne k₀ k with rfl | h
    · simp [setEntry, lookupEntry, Ne.symm hne]
    · simp [setEntry, lookupEntry, h, ih]

theorem lookupEntry_popEntry_other {α β : Type} [DecidableEq α]
    (l l' : List (α × β)) (k k' : α) (hne : k' ≠ k)
    (h : popEntry l k = some l') :
    lookupEntry l' k' = lookupEntry l k' := by
  induction l generalizing l' with
  | nil => simp [popEntry] at h
  | cons hd tl ih =>
    obtain ⟨k₀, v₀⟩ := hd
    rcases eq_or_ne k₀ k with rfl | hk
    · simp only [popEntry, if_pos trivial, eq_self_iff_true, if_true,
        Option.some.injEq] at h
      subst h
      simp [lookupEntry, Ne.symm hne]
    · simp only [popEntry, if_neg hk, Option.map_eq_some'] at h
      obtain ⟨t', ht', h2⟩ := h
      subst h2
      rcases eq_or_ne k₀ k' with rfl | h'
      · simp [lookupEntry, ih t' ht']
      · simp [lookupEntry, h', ih t' ht']

theorem lookupEntry_eq_none_of_not_mem {α β : Type} [DecidableEq α]
    (l : List (α × β)) (k : α) (h : k ∉ l.map Prod.fst) :
    lookupEntry l k = none := by
  induction l with
  | nil => simp [lookupEntry]
  | cons hd tl ih =>
    obtain ⟨k₀, v₀⟩ := hd
    simp only [List.map_cons, List.mem_cons, not_or] at h
    have hk : k₀ ≠ k := fun hk => h.1 hk.symm
    simp [lookupEntry, hk, ih h.2]

theorem lookupEntry_popEntry_self {α β : Type} [DecidableEq α]
    (l l' : List (α × β)) (k : α) (hnd : (l.map Prod.fst).Nodup)
    (h : popEntry l k = some l') :
    lookupEntry l' k = none := by
  induction l generalizing l' with
  | nil => simp [popEntry] at h
  | cons hd tl ih =>
    obtain ⟨k₀, v₀⟩ := hd
    simp only [List.map_cons, List.nodup_cons] at hnd
    rcases eq_or_ne k₀ k with rfl | hk
    · simp only [popEntry, if_pos trivial, eq_self_iff_true, if_true,
        Option.some.injEq] at h
      subst h
      exact lookupEntry_eq_none_of_not_mem tl k₀ hnd.1
    · simp only [popEntry, if_neg hk, Option.map_eq_some'] at h
      obtain ⟨t', ht', h2⟩ := h
      subst h2
      simp [lookupEntry, hk, ih t' hnd.2 ht']

theorem popEntry_of_lookupEntry {α β : Type} [DecidableEq α]
    (l : List (α × β)) (k : α) (v : β) (h : lookupEntry l k = some v) :
    ∃ l', popEntry l k = some l' := by
  induction l with
  | nil => simp [lookupEntry] at h
  | cons hd tl ih =>
    obtain ⟨k₀, v₀⟩ := hd
    rcases eq_or_ne k₀ k with rfl | hk
    · exact ⟨tl, by simp [popEntry]⟩
    · simp only [lookupEntry, if_neg hk] at h
      obtain ⟨t', ht'⟩ := ih h
      exact ⟨(k₀, v₀) :: t', by simp [popEntry, hk, ht']⟩

theorem mem_map_fst_setEntry {α β : Type} [DecidableEq α]
    (l : List (α × β)) (k a : α) (v : β) :
    a ∈ (setEntry l k v).map Prod.fst ↔ a ∈ l.map Prod.fst ∨ a = k := by
  induction l with
  | nil => simp [setEntry]
  | cons hd tl ih =>
    obtain ⟨k₀, v₀⟩ := hd
    rcases eq_or_ne k₀ k with rfl | h
    · simp [setEntry]
      tauto
    · simp [setEntry, h, ih]
      tauto

theorem nodup_setEntry {α β : Type} [DecidableEq α]
    (l : List (α × β)) (k : α) (v : β) (h : (l.map Prod.fst).Nodup) :
    ((setEntry l k v).map Prod.fst).Nodup := by
  induction l with
  | nil => simp [setEntry]
  | cons hd tl ih =>
    obtain ⟨k₀, v₀⟩ := hd
    simp only [List.map_cons, List.nodup_cons] at h
    rcases eq_or_ne k₀ k with rfl | hk
    · simp only [setEntry, if_pos trivial, eq_self_iff_true, if_true,
        List.map_cons, List.nodup_cons]
      exact ⟨h.1, h.2⟩
    · simp only [setEntry, if_neg hk, List.map_cons, List.nodup_cons]
      refine ⟨?_, ih h.2⟩
      rw [mem_map_fst_setEntry]
      rintro (hmem | rfl)
      · exact h.1 hmem
      · exact hk rfl

theorem popEntry_eq_none_of_lookup {α β : Type} [DecidableEq α]
    (l : List (α × β)) (k : α) (h : lookupEntry l k = none) :
    popEntry l k = none := by
  induction l with
  | nil => simp [popEntry]
  | cons hd tl ih =>
    obtain ⟨k₀, v₀⟩ := hd
    rcases eq_or_ne k₀ k with rfl | hk
    · simp [lookupEntry] at h
    · simp only [lookupEntry, if_neg hk] at h
      simp [popEntry, hk, ih h]

theorem FS.read_write_self (fs : FS) (p : Path) (j : Json) :
    (fs.write p j).read p = some j :=
  lookupEntry_setEntry_self fs.files p j

theorem FS.read_write_other (fs : FS) (p q : Path) (j : Json) (h : q ≠ p) :
    (fs.write p j).read q = fs.read q :=
  lookupEntry_setEntry_other fs.files p q j h

/-! ### Scanning helpers -/

/-- The predicate `find_by_name` scans with is false on a record whose
`name` field never matches. -/
theorem find_by_name_pred_false (x : Json) (v : String)
    (hx : ∀ nv, x.lookup "name" = some nv → nv.eqStr v = false) :
    (match x.lookup "name" with
     | some nv => nv.eqStr v
     | none => false) = false := by
  cases hnv : x.lookup "name" with
  | none => rfl
  | some nv => exact hx nv hnv

theorem find_by_name_eq_none (records : List Json) (v : String)
    (h : ∀ x ∈ records, ∀ nv, x.lookup "name" = some nv → nv.eqStr v = false) :
    find_by_name records v = none := by
  induction records with
  | nil => rfl
  | cons x xs ih =>
    have hx := find_by_name_pred_false x v (h x (by simp))
    simp only [find_by_name] at ih ⊢
    rw [List.find?_cons_of_neg _ (by simp [hx])]
    exact ih (fun y hy => h y (by simp [hy]))

theorem find_by_name_first (pre post : List Json) (b : Json) (v : String)
    (hpre : ∀ x ∈ pre, ∀ nv, x.lookup "name" = some nv → nv.eqStr v = false)
    (hb : b.lookup "name" = some (.str v)) :
    find_by_name (pre ++ b :: post) v = some b := by
  induction pre with
  | nil =>
    simp only [find_by_name, List.nil_append]
    exact List.find?_cons_of_pos _ (by rw [hb]; simp [Json.eqStr])
  | cons x xs ih =>
    have hx := find_by_name_pred_false x v (hpre x (by simp))
    simp only [find_by_name, List.cons_append] at ih ⊢
    rw [List.find?_cons_of_neg _ (by simp [hx])]
    exact ih (fun y hy => hpre y (by simp [hy]))

/-- One declared resource passing the `execute_view` precondition scan: a
string name whose record exists and has non-falsy data. -/
def resourcePasses (fs : FS) (j : Json) : Prop :=
  ∃ (name : String) (r dv : Json), j = .str name
    ∧ fs.read (.resource name) = some r
    ∧ r.lookup "data" = some dv ∧ dv.falsy = false

theorem checkResources_all_ok (fs : FS) (items : List Json)
    (h : ∀ j ∈ items, resourcePasses fs j) :
    checkResources fs items = .ok () := by
  induction items with
  | nil => rfl
  | cons j rest ih =>
    obtain ⟨name, r, dv, rfl, hr, hd, hfal⟩ := h j (by simp)
    simp only [checkResources, hr, hd, hfal, Bool.false_eq_true, if_false]
    exact ih (fun y hy => h y (by simp [hy]))

theorem checkResources_ok_all (fs : FS) (items : List Json)
    (h : checkResources fs items = .ok ()) :
    ∀ j ∈ items, resourcePasses fs j := by
  induction items with
  | nil => simp
  | cons j rest ih =>
    cases j with
    | str name =>
      simp only [checkResources] at h
      cases hr : fs.read (.resource name) with
      | none => simp [hr] at h
      | some r =>
        simp only [hr] at h
        cases hd : r.lookup "data" with
        | none => simp [hd] at h
        | some dv =>
          simp only [hd] at h
          cases hfal : dv.falsy with
          | true => simp [hfal] at h
          | false =>
            simp only [hfal, Bool.false_eq_true, if_false] at h
            intro j hj
            rcases List.mem_cons.mp hj with rfl | hj'
            · exact ⟨name, r, dv, rfl, hr, hd, hfal⟩
            · exact ih h j hj'
    | null => simp [checkResources] at h
    | bool b => simp [checkResources] at h
    | num x => simp [checkResources] at h
    | arr l => simp [checkResources] at h
    | obj o => simp [checkResources] at h

theorem checkResources_first_empty (fs : FS) (pre post : List Json)
    (name : String) (r dv : Json)
    (hpre : ∀ j ∈ pre, resourcePasses fs j)
    (hr : fs.read (.resource name) = some r)
    (hd : r.lookup "data" = some dv)
    (hfal : dv.falsy = true) :
    checkResources fs (pre ++ .str name :: post)
      = .error (.resourceError name) := by
  induction pre with
  | nil => simp only [List.nil_append, checkResources, hr, hd, hfal, if_true]
  | cons j rest ih =>
    obtain ⟨nm, r', dv', rfl, hr', hd', hfal'⟩ := hpre j (by simp)
    simp only [List.cons_append, checkResources, hr', hd', hfal',
      Bool.false_eq_true, if_false]
    exact ih (fun y hy => hpre y (by simp [hy]))

/-! ### Inversion helpers for load and write -/

theorem toValue_toRecord (lr : LoadedResource) :
    lr.toValue.toRecord = lr.record := by
  cases lr <;> rfl

/-- The record inside any successful `load_resource` result is the merged
record the profile dispatch was applied to. -/
theorem finishLoad_record (j : Json) (d : Bool) (lr : LoadedResource)
    (h : finishLoad j d = .ok lr) : lr.record = j := by
  unfold finishLoad at h
  split at h
  · cases h
    rfl
  · split at h
    · exact absurd h (by simp)
    · split at h
      · cases h
        rfl
      · exact absurd h (by simp)

/-- What `load_resource` with a format builds, by cases on the sentinel
test: either the on-disk schema was the sentinel — then the format schema
is a dict `fsm`, and both `schema` and `format` of the result hold that
dict tagged with `type = "format"` (they alias one dict in the source) —
or it was not, and only the `format` field was installed. -/
theorem loadResource_format_record_inv (fs : FS) (n f : String) (d : Bool)
    (lr : LoadedResource) (m : List (String × Json)) (fmtFile fmtSchema : Json)
    (hm : fs.read (.resource n) = some (.obj m))
    (hf : fs.read (.format f) = some fmtFile)
    (hfsch : fmtFile.lookup "schema" = some fmtSchema)
    (hload : loadResource fs n (some f) d = .ok lr) :
    (∃ fsm, fmtSchema = .obj fsm
      ∧ lookupEntry m "schema" = some (.str "inherit-from-format")
      ∧ lr.record = .obj (setEntry (setEntry (setEntry m "format" fmtSchema)
          "schema" (.obj (setEntry fsm "type" (.str "format"))))
          "format" (.obj (setEntry fsm "type" (.str "format")))))
    ∨ (∃ sv, lookupEntry m "schema" = some sv
      ∧ sv.eqStr "inherit-from-format" = false
      ∧ lr.record = .obj (setEntry m "format" fmtSchema)) := by
  simp only [loadResource, hm, mergeFormat, hf] at hload
  rw [hfsch] at hload
  simp only [Json.setKey, Json.lookup] at hload
  have h1 : lookupEntry (setEntry m "format" fmtSchema) "schema"
      = lookupEntry m "schema" :=
    lookupEntry_setEntry_other m "format" "schema" fmtSchema (by decide)
  rw [h1] at hload
  cases hsv : lookupEntry m "schema" with
  | none => simp [hsv] at hload
  | some sv =>
    simp only [hsv] at hload
    cases hb : sv.eqStr "inherit-from-format" with
    | false =>
      simp only [hb, Bool.false_eq_true, if_false] at hload
      exact Or.inr ⟨sv, rfl, hb, finishLoad_record _ _ _ hload⟩
    | true =>
      simp only [hb, if_true] at hload
      cases fmtSchema with
      | obj fsm =>
        simp only [Json.setKey, Json.setKeyD, Option.getD] at hload
        refine Or.inl ⟨fsm, rfl, ?_, ?_⟩
        · cases sv <;> simp [Json.eqStr] at hb
          rw [hb]
        · exact finishLoad_record _ _ _ hload
      | null => simp [Json.setKey] at hload
      | bool b => simp [Json.setKey] at hload
      | num x => simp [Json.setKey] at hload
      | str s => simp [Json.setKey] at hload
      | arr l => simp [Json.setKey] at hload

/-- What a successful `write_resource` persisted: the stored record has no
`format` field, and a schema that carried the `type = "format"` tag was
replaced by the sentinel. -/
theorem writeResource_ok_inv (fs₂ fs₃ : FS) (rv : ResourceValue) (now : Int)
    (w : List (String × Json)) (n₂ : String)
    (hrec : rv.toRecord = .obj w)
    (hnd : (w.map Prod.fst).Nodup)
    (hname : lookupEntry w "name" = some (.str n₂))
    (hwrite : writeResource fs₂ rv now = .ok fs₃) :
    ∃ rec : Json, fs₃.read (.resource n₂) = some rec
      ∧ rec.lookup "format" = none
      ∧ (∀ s, lookupEntry w "schema" = some (.obj s) →
          lookupEntry s "type" = some (.str "format") →
          rec.lookup "schema" = some (.str "inherit-from-format")) := by
  simp only [writeResource, hrec, Json.lookup, hname, Json.popKey] at hwrite
  cases hp : popEntry w "format" with
  | none => simp [hp] at hwrite
  | some l' =>
    simp only [hp, Option.map_some'] at hwrite
    have hsl : lookupEntry l' "schema" = lookupEntry w "schema" :=
      lookupEntry_popEntry_other w l' "format" "schema" (by decide) hp
    cases hs : lookupEntry l' "schema" with
    | none => simp [hs] at hwrite
    | some sv =>
      simp only [hs] at hwrite
      cases sv with
      | null => simp at hwrite
      | bool b => simp at hwrite
      | num x => simp at hwrite
      | str st => simp at hwrite
      | arr l => simp at hwrite
      | obj s' =>
        simp only [Json.lookup] at hwrite
        generalize hrec₂ : (if (match lookupEntry s' "type" with
            | some v => v.eqStr "format"
            | none => false) = true then
            (Json.obj l').setKeyD "schema" (Json.str "inherit-from-format")
          else Json.obj l') = rec₂ at hwrite
        cases hdp : (fs₂.write (.resource n₂) rec₂).read .datapackage with
        | none => simp [hdp] at hwrite
        | some dp =>
          simp only [hdp] at hwrite
          cases hdp2 : dp.setKey "updated" (.num now) with
          | none => simp [hdp2] at hwrite
          | some dp₂ =>
            simp only [hdp2, Except.ok.injEq] at hwrite
            subst hwrite
            have hfmt' : lookupEntry l' "format" = none :=
              lookupEntry_popEntry_self w l' "format" hnd hp
            refine ⟨rec₂, ?_, ?_, ?_⟩
            · show lookupEntry (setEntry (setEntry fs₂.files (.resource n₂) rec₂)
                Path.datapackage dp₂) (.resource n₂) = some rec₂
              rw [lookupEntry_setEntry_other _ Path.datapackage (.resource n₂) dp₂
                (by simp), lookupEntry_setEntry_self]
            · subst hrec₂
              split
              · simp only [Json.setKeyD, Json.setKey, Option.getD, Json.lookup]
                rw [lookupEntry_setEntry_other l' "schema" "format" _ (by decide)]
                exact hfmt'
              · exact hfmt'
            · intro s hws htag
              rw [← hsl, hs, Option.some.injEq] at hws
              cases hws
              subst hrec₂
              rw [htag]
              simp [Json.eqStr, Json.setKeyD, Json.setKey, Json.lookup,
                lookupEntry_setEntry_self]

/-! ### Concrete fixture: a small datapackage tree -/

/-- The schema of format `csv`. -/
def csvSchema : Json := .obj [("primaryKey", .str "id")]

/-- A resource inheriting its schema from a format, with empty data. -/
def inhResource : Json :=
  .obj [("name", .str "inh"), ("profile", .str "tabular-data-resource"),
        ("schema", .str "inherit-from-format"), ("data", .arr [])]

/-- A resource owning its schema, with non-empty data. -/
def ownResource : Json :=
  .obj [("name", .str "own"), ("profile", .str "tabular-data-resource"),
        ("schema", .obj [("fields", .arr [])]), ("data", .arr [.num 1])]

/-- A resource with an unrecognized profile. -/
def badResource : Json :=
  .obj [("name", .str "bad"), ("profile", .str "weird-profile"),
        ("schema", .obj []), ("data", .arr [])]

/-- A format-inheriting resource with non-empty data. -/
def fullResource : Json :=
  .obj [("name", .str "full"), ("profile", .str "tabular-data-resource"),
        ("schema", .str "inherit-from-format"), ("data", .arr [.num 1])]

/-- A view rendering over `full` (populated) and `inh` (empty). -/
def sampleView : Json :=
  .obj [("name", .str "plot"), ("container", .str "view-image"),
        ("resources", .arr [.str "full", .str "inh"])]

/-- A configuration binding variable `x` to resource `inh` with format `csv`. -/
def sampleConfiguration : Json :=
  .obj [("name", .str "cfg"), ("container", .str "algo-image"),
        ("data", .arr [.obj [("name", .str "x"), ("resource", .str "inh"),
                             ("format", .str "csv")]])]

/-- The package metadata record. -/
def sampleMetadata : Json := .obj [("updated", .num 100), ("title", .str "pkg")]

/-- The whole fixture tree. -/
def sampleFS : FS :=
  ⟨[(.resource "inh", inhResource), (.resource "own", ownResource),
    (.resource "bad", badResource), (.resource "full", fullResource),
    (.format "csv", .obj [("name", .str "csv"), ("schema", csvSchema)]),
    (.view "plot", sampleView), (.configuration "cfg", sampleConfiguration),
    (.datapackage, sampleMetadata)]⟩

/-- What `load_resource` yields for `inh` without a format name: the
dummy placeholder appended, everything else untouched. -/
def inhLoadedNoFormat : Json :=
  .obj [("name", .str "inh"), ("profile", .str "tabular-data-resource"),
        ("schema", .str "inherit-from-format"), ("data", .arr []),
        ("format", .obj [("hello", .str "world")])]

/-- What `load_resource` yields for `inh` with format `csv`: `schema` and
`format` both hold the csv schema tagged `type = "format"`. -/
def inhLoadedMerged : Json :=
  .obj [("name", .str "inh"), ("profile", .str "tabular-data-resource"),
        ("schema", .obj [("primaryKey", .str "id"), ("type", .str "format")]),
        ("data", .arr []),
        ("format", .obj [("primaryKey", .str "id"), ("type", .str "format")])]

/-- What `load_resource` yields for `own` without a format name. -/
def ownLoadedNoFormat : Json :=
  .obj [("name", .str "own"), ("profile", .str "tabular-data-resource"),
        ("schema", .obj [("fields", .arr [])]), ("data", .arr [.num 1]),
        ("format", .obj [("hello", .str "world")])]

/-- A view whose single declared resource is populated. -/
def okView : Json :=
  .obj [("container", .str "view-image"), ("resources", .arr [.str "full"])]

/-- The fixture tree extended with the passing view. -/
def okFS : FS := ⟨(Path.view "ok", okView) :: sampleFS.files⟩

/-- A runtime whose container exits 0 with logs needing trimming. -/
def runtimeOK : RunCall → ContainerResult := fun _ => ⟨0, "  ok  "⟩

/-- A runtime whose container exits 1 with logs needing trimming. -/
def runtimeFail : RunCall → ContainerResult := fun _ => ⟨1, " boom\n"⟩

/-! ### The claims -/

/-- C3: `execute_container` raises `ExecutionError` whose `logs` attribute
is the captured combined output trimmed of surrounding whitespace exactly
when the container's terminal exit status is non-zero, and on a zero exit
status it returns that same trimmed log string. -/
theorem execute_container_logs (runtime : RunCall → ContainerResult)
    (container_name : String) (environment : List (String × String)) :
    (executeContainer runtime container_name environment
        = .error (.executionError
            (pyStrip (runtime ⟨container_name, environment⟩).logs))
      ↔ (runtime ⟨container_name, environment⟩).statusCode ≠ 0)
    ∧ (executeContainer runtime container_name environment
        = .ok (pyStrip (runtime ⟨container_name, environment⟩).logs)
      ↔ (runtime ⟨container_name, environment⟩).statusCode = 0) := by
  unfold executeContainer
  by_cases h : (runtime ⟨container_name, environment⟩).statusCode = 0 <;>
    simp [h]

/-- Witness for C3: exit 1 with logs " boom\n" raises the error carrying
"boom"; exit 0 with logs "  ok  " returns "ok". -/
theorem execute_container_logs_witness :
    executeContainer runtimeFail "img" [] = .error (.executionError "boom")
    ∧ executeContainer runtimeOK "img" [] = .ok "ok" :=
  ⟨(execute_container_logs runtimeFail "img" []).1.mpr (by decide),
   (execute_container_logs runtimeOK "img" []).2.mpr rfl⟩

/-- C9: `write_resource` pops the `format` key unconditionally, so a
record lacking a `format` field raises KeyError, and the error carries
the unchanged file system: neither the resource file nor the datapackage
metadata was written. -/
theorem write_resource_missing_format_key (fs : FS) (now : Int)
    (resource : ResourceValue) (m : List (String × Json)) (n : String)
    (hrec : resource.toRecord = .obj m)
    (hname : lookupEntry m "name" = some (.str n))
    (hfmt : lookupEntry m "format" = none) :
    writeResource fs resource now = .error (.keyError "format", fs) := by
  simp only [writeResource, hrec, Json.lookup, hname, Json.popKey,
    popEntry_eq_none_of_lookup m "format" hfmt, Option.map_none']

/-- Witness for C9: the on-disk `inh` record has no `format` field. -/
theorem write_resource_missing_format_key_witness :
    writeResource sampleFS (.dict inhResource) 200
      = .error (.keyError "format", sampleFS) :=
  write_resource_missing_format_key sampleFS 200 (.dict inhResource) _ "inh"
    rfl rfl rfl

/-- C10: the `.get("type")` lookup in `write_resource` requires the
in-memory schema to be a dict: a record whose schema is still the
sentinel string (as `load_resource` without a format name leaves it)
raises AttributeError before any file is written, the error carrying the
unchanged file system; and when the schema is a dict that error is
unreachable. -/
theorem write_resource_string_schema (fs : FS) (now : Int)
    (resource : ResourceValue) (m : List (String × Json))
    (hrec : resource.toRecord = .obj m) :
    (∀ n fv, lookupEntry m "name" = some (.str n) →
      lookupEntry m "format" = some fv →
      lookupEntry m "schema" = some (.str "inherit-from-format") →
      writeResource fs resource now = .error (.attributeError "get", fs))
    ∧ (∀ s, lookupEntry m "schema" = some (.obj s) →
      ∀ (fs₂ : FS) (a : String),
        writeResource fs resource now ≠ .error (.attributeError a, fs₂)) := by
  constructor
  · intro n fv hname hfmt hsch
    obtain ⟨l', hp⟩ := popEntry_of_lookupEntry m "format" fv hfmt
    have hs' : lookupEntry l' "schema" = some (.str "inherit-from-format") := by
      rw [lookupEntry_popEntry_other m l' "format" "schema" (by decide) hp]
      exact hsch
    simp only [writeResource, hrec, Json.lookup, hname, Json.popKey, hp,
      Option.map_some', hs']
  · intro s hsch fs₂ a
    simp only [writeResource, hrec, Json.lookup, Json.popKey]
    cases hn : lookupEntry m "name" with
    | none => simp
    | some nj =>
      cases nj with
      | null => simp
      | bool b => simp
      | num x => simp
      | str n =>
        cases hp : popEntry m "format" with
        | none => simp
        | some l' =>
          have hs' : lookupEntry l' "schema" = some (.obj s) := by
            rw [lookupEntry_popEntry_other m l' "format" "schema"
              (by decide) hp]
            exact hsch
          simp only [Option.map_some', hs']
          intro hcontra
          split at hcontra
          · simp at hcontra
          · split at hcontra <;> simp at hcontra
      | arr l => simp
      | obj o => simp

/-- Witness for C10: writing the no-format load of `inh` back fails with
AttributeError and changes nothing; writing the format-merged load back
does not produce that error. -/
theorem write_resource_string_schema_witness :
    writeResource sampleFS (.dict inhLoadedNoFormat) 200
      = .error (.attributeError "get", sampleFS)
    ∧ writeResource sampleFS (.dict inhLoadedMerged) 200
      ≠ .error (.attributeError "get", sampleFS) :=
  ⟨(write_resource_string_schema sampleFS 200 (.dict inhLoadedNoFormat)
      _ rfl).1 "inh" _ rfl rfl rfl,
   (write_resource_string_schema sampleFS 200 (.dict inhLoadedMerged)
      _ rfl).2 _ rfl sampleFS "get"⟩

/-- C7 counterexample: without a `format_name` the transient `format`
field is the fixed dummy object containing the pair hello/world — not an
empty object — so the claim's "empty placeholder" fails, here on `inh`. -/
theorem load_resource_placeholder_cex :
    loadResource sampleFS "inh" none true = .ok (.dict inhLoadedNoFormat)
    ∧ inhLoadedNoFormat.lookup "format" = some (.obj [("hello", .str "world")])
    ∧ Json.obj [("hello", .str "world")] ≠ .obj [] :=
  ⟨rfl, rfl, by simp⟩

/-- C7 amended: `load_resource` without a `format_name` yields a record
whose transient `format` field is the fixed non-empty placeholder object
containing hello/world, independent of the resource's own schema value,
and every other field — in particular `schema` — is unchanged. -/
theorem load_resource_placeholder (fs : FS) (n : String) (d : Bool)
    (m : List (String × Json)) (lr : LoadedResource)
    (hm : fs.read (.resource n) = some (.obj m))
    (hload : loadResource fs n none d = .ok lr) :
    lr.record = .obj (setEntry m "format" (.obj [("hello", .str "world")]))
    ∧ lr.record.lookup "format" = some (.obj [("hello", .str "world")])
    ∧ ∀ k, k ≠ "format" → lr.record.lookup k = lookupEntry m k := by
  simp only [loadResource, hm, mergeFormat, Json.setKey] at hload
  have hr := finishLoad_record _ _ _ hload
  refine ⟨hr, ?_, ?_⟩
  · rw [hr]
    simp [Json.lookup, lookupEntry_setEntry_self]
  · intro k hk
    rw [hr]
    simp [Json.lookup, lookupEntry_setEntry_other m "format" k _ hk]

/-- Witness for C7 amended, on `inh`: the placeholder is installed and
the sentinel schema is untouched. -/
theorem load_resource_placeholder_witness :
    (LoadedResource.dict inhLoadedNoFormat).record.lookup "format"
      = some (.obj [("hello", .str "world")])
    ∧ (LoadedResource.dict inhLoadedNoFormat).record.lookup "schema"
      = some (.str "inherit-from-format") := by
  have h := load_resource_placeholder sampleFS "inh" true _
    (.dict inhLoadedNoFormat) rfl rfl
  refine ⟨h.2.1, ?_⟩
  rw [h.2.2 "schema" (by decide)]
  rfl

/-- C5: the profile dispatch of `load_resource` without `as_dict`: a
profile that is neither of the two recognized tags raises the error
naming the profile; either recognized tag yields the strongly-typed value
built from the merged record. -/
theorem load_resource_profile_check (fs : FS) (n p : String)
    (m : List (String × Json))
    (hm : fs.read (.resource n) = some (.obj m))
    (hp : lookupEntry m "profile" = some (.str p)) :
    ((p ≠ "tabular-data-resource" ∧ p ≠ "parameter-tabular-data-resource") →
      loadResource fs n none false = .error (.unsupportedProfile (.str p)))
    ∧ ((p = "tabular-data-resource" ∨ p = "parameter-tabular-data-resource") →
      loadResource fs n none false = .ok (.typed
        ⟨.obj (setEntry m "format" (.obj [("hello", .str "world")]))⟩)) := by
  have hp' : lookupEntry (setEntry m "format" (.obj [("hello", .str "world")]))
      "profile" = some (.str p) := by
    rw [lookupEntry_setEntry_other m "format" "profile" _ (by decide)]
    exact hp
  constructor
  · rintro ⟨h1, h2⟩
    simp [loadResource, hm, mergeFormat, Json.setKey, finishLoad, Json.lookup,
      hp', Json.eqStr, h1, h2]
  · intro h
    rcases h with h | h <;>
      simp [loadResource, hm, mergeFormat, Json.setKey, finishLoad,
        Json.lookup, hp', Json.eqStr, h]

/-- Witness for C5: `bad` has the unrecognized profile `weird-profile`,
`own` the recognized `tabular-data-resource`. -/
theorem load_resource_profile_check_witness :
    loadResource sampleFS "bad" none false
      = .error (.unsupportedProfile (.str "weird-profile"))
    ∧ loadResource sampleFS "own" none false
      = .ok (.typed ⟨ownLoadedNoFormat⟩) :=
  ⟨(load_resource_profile_check sampleFS "bad" "weird-profile" _ rfl rfl).1
      (by decide),
   (load_resource_profile_check sampleFS "own" "tabular-data-resource" _
      rfl rfl).2 (Or.inl rfl)⟩

/-- C6: `load_resource_by_variable` scans the configuration's `data`
bindings in declared order; when no binding's name matches it fails with
the error naming the variable and the configuration, and on the first
match it delegates to `load_resource` with the binding's resource and
format names. -/
theorem load_resource_by_variable_resolution (fs : FS) (v c : String)
    (d : Bool) (cfg : Json) (records : List Json)
    (hc : fs.read (.configuration c) = some cfg)
    (hdata : cfg.lookup "data" = some (.arr records)) :
    ((∀ x ∈ records, ∀ nv, x.lookup "name" = some nv → nv.eqStr v = false) →
      loadResourceByVariable fs v c d = .error (.variableNotFound v c))
    ∧ (∀ (pre post : List Json) (b : Json) (r f : String),
        records = pre ++ b :: post →
        (∀ x ∈ pre, ∀ nv, x.lookup "name" = some nv → nv.eqStr v = false) →
        b.lookup "name" = some (.str v) →
        b.lookup "resource" = some (.str r) →
        b.lookup "format" = some (.str f) →
        loadResourceByVariable fs v c d = loadResource fs r (some f) d) := by
  constructor
  · intro h
    simp only [loadResourceByVariable, hc, hdata,
      find_by_name_eq_none records v h]
  · intro pre post b r f hrec hpre hb hr hf
    subst hrec
    simp only [loadResourceByVariable, hc, hdata,
      find_by_name_first pre post b v hpre hb, hr, hf, formatNameOfJson]

/-- Witness for C6 on the fixture configuration: variable `x` resolves to
resource `inh` with format `csv`; variable `y` fails naming `y` and
`cfg`. -/
theorem load_resource_by_variable_resolution_witness :
    loadResourceByVariable sampleFS "x" "cfg" true
      = loadResource sampleFS "inh" (some "csv") true
    ∧ loadResourceByVariable sampleFS "y" "cfg" true
      = .error (.variableNotFound "y" "cfg") := by
  constructor
  · exact (load_resource_by_variable_resolution sampleFS "x" "cfg" true
      sampleConfiguration _ rfl rfl).2 [] []
      (.obj [("name", .str "x"), ("resource", .str "inh"),
        ("format", .str "csv")]) "inh" "csv" rfl (by simp) rfl rfl rfl
  · refine (load_resource_by_variable_resolution sampleFS "y" "cfg" true
      sampleConfiguration _ rfl rfl).1 ?_
    intro x hx nv hnv
    simp only [List.mem_singleton] at hx
    subst hx
    simp only [Json.lookup, lookupEntry, if_pos, Option.some.injEq] at hnv
    subst hnv
    rfl

/-- C8: a successful `write_resource` rewrites the datapackage metadata
setting `updated` to the clock value `now`, leaves every other metadata
field unchanged, and therefore never lowers `updated` below a prior value
that was itself a clock reading not exceeding `now`. -/
theorem write_resource_updates_metadata (fs : FS)
    (resource : ResourceValue) (now : Int) (m s dpm : List (String × Json))
    (n : String) (fv : Json)
    (hrec : resource.toRecord = .obj m)
    (hname : lookupEntry m "name" = some (.str n))
    (hfmt : lookupEntry m "format" = some fv)
    (hsch : lookupEntry m "schema" = some (.obj s))
    (hdp : fs.read .datapackage = some (.obj dpm)) :
    ∃ fs', writeResource fs resource now = .ok fs'
      ∧ fs'.read .datapackage = some (.obj (setEntry dpm "updated" (.num now)))
      ∧ lookupEntry (setEntry dpm "updated" (.num now)) "updated"
          = some (.num now)
      ∧ (∀ k, k ≠ "updated" →
          lookupEntry (setEntry dpm "updated" (.num now)) k
            = lookupEntry dpm k)
      ∧ (∀ t : Int, lookupEntry dpm "updated" = some (.num t) → t ≤ now →
          ∀ u : Int, lookupEntry (setEntry dpm "updated" (.num now)) "updated"
            = some (.num u) → t ≤ u) := by
  obtain ⟨l', hp⟩ := popEntry_of_lookupEntry m "format" fv hfmt
  have hs' : lookupEntry l' "schema" = some (.obj s) := by
    rw [lookupEntry_popEntry_other m l' "format" "schema" (by decide) hp]
    exact hsch
  have hdp1 : ∀ j : Json,
      (fs.write (.resource n) j).read .datapackage = some (.obj dpm) := by
    intro j
    rw [FS.read_write_other fs (.resource n) .datapackage j (by simp)]
    exact hdp
  have key : writeResource fs resource now = .ok
      ((fs.write (.resource n)
        (if (match lookupEntry s "type" with
             | some v => v.eqStr "format"
             | none => false) = true then
          (Json.obj l').setKeyD "schema" (.str "inherit-from-format")
        else .obj l')).write .datapackage
        (.obj (setEntry dpm "updated" (.num now)))) := by
    simp only [writeResource, hrec, Json.lookup, hname, Json.popKey, hp,
      Option.map_some', hs', hdp1, Json.setKey]
  refine ⟨_, key, FS.read_write_self _ .datapackage _,
    lookupEntry_setEntry_self dpm "updated" _,
    fun k hk => lookupEntry_setEntry_other dpm "updated" k _ hk, ?_⟩
  intro t ht hle u hu
  rw [lookupEntry_setEntry_self] at hu
  obtain rfl : now = u := by simpa using hu
  exact hle

/-- Witness for C8: writing the merged `inh` record back at time 200
bumps `updated` from 100 to 200 and keeps the `title` field. -/
theorem write_resource_updates_metadata_witness :
    ∃ fs', writeResource sampleFS (.dict inhLoadedMerged) 200 = .ok fs'
      ∧ fs'.read .datapackage = some (.obj (setEntry
          [("updated", Json.num 100), ("title", Json.str "pkg")]
          "updated" (.num 200))) := by
  obtain ⟨fs', h1, h2, _⟩ := write_resource_updates_metadata sampleFS
    (.dict inhLoadedMerged) 200 _ _ _ "inh" _ rfl rfl rfl rfl rfl
  exact ⟨fs', h1, h2⟩

/-- C2: `execute_view` raises `ResourceError` naming the first declared
resource (in declared order) whose data is falsy, and issues no run call
in that case; when every declared resource passes it runs exactly one
container, the view's image, with environment `VIEW=view_name`; and a
run call is only ever issued when every declared resource passes. -/
theorem execute_view_precondition (fs : FS)
    (runtime : RunCall → ContainerResult) (v : String) (view : Json)
    (items : List Json)
    (hv : fs.read (.view v) = some view)
    (hres : view.lookup "resources" = some (.arr items)) :
    (∀ (pre post : List Json) (name : String) (r dv : Json),
      items = pre ++ .str name :: post →
      (∀ j ∈ pre, resourcePasses fs j) →
      fs.read (.resource name) = some r →
      r.lookup "data" = some dv → dv.falsy = true →
      executeView fs runtime v = ([], .error (.resourceError name)))
    ∧ (∀ cimg : String, (∀ j ∈ items, resourcePasses fs j) →
      view.lookup "container" = some (.str cimg) →
      executeView fs runtime v = ([⟨cimg, [("VIEW", v)]⟩],
        executeContainer runtime cimg [("VIEW", v)]))
    ∧ ((executeView fs runtime v).1 ≠ [] →
      ∀ j ∈ items, resourcePasses fs j) := by
  refine ⟨?_, ?_, ?_⟩
  · intro pre post name r dv hitems hpre hr hd hfal
    subst hitems
    simp only [executeView, hv, hres,
      checkResources_first_empty fs pre post name r dv hpre hr hd hfal]
  · intro cimg hall hc
    simp only [executeView, hv, hres, checkResources_all_ok fs items hall, hc]
  · intro hne
    simp only [executeView, hv, hres] at hne
    cases hck : checkResources fs items with
    | error e => rw [hck] at hne; simp at hne
    | ok u =>
      cases u
      exact checkResources_ok_all fs items hck

/-- Witness for C2: the `plot` view fails naming `inh` (the first empty
resource after `full` passes) without a run call; the `ok` view runs its
container and returns the logs. -/
theorem execute_view_precondition_witness :
    executeView sampleFS runtimeOK "plot" = ([], .error (.resourceError "inh"))
    ∧ executeView okFS runtimeOK "ok"
      = ([⟨"view-image", [("VIEW", "ok")]⟩], .ok "ok") := by
  constructor
  · exact (execute_view_precondition sampleFS runtimeOK "plot" sampleView _
      rfl rfl).1 [.str "full"] [] "inh" inhResource (.arr []) rfl
      (by
        intro j hj
        simp only [List.mem_singleton] at hj
        subst hj
        exact ⟨"full", fullResource, .arr [.num 1], rfl, rfl, rfl, rfl⟩)
      rfl rfl rfl
  · have h := (execute_view_precondition okFS runtimeOK "ok" okView _
      rfl rfl).2.1 "view-image"
      (by
        intro j hj
        simp only [List.mem_singleton] at hj
        subst hj
        exact ⟨"full", fullResource, .arr [.num 1], rfl, rfl, rfl, rfl⟩)
      rfl
    rw [h]
    rfl

/-- C4 counterexample: loading `inh` with format `csv` leaves the
`type = "format"` tag on the transient `format` field as well — in the
source `schema` and `format` alias one dict — so the `format` field is
not an untagged copy of the format schema `csvSchema`. -/
theorem load_resource_format_tag_cex :
    loadResource sampleFS "inh" (some "csv") true = .ok (.dict inhLoadedMerged)
    ∧ inhLoadedMerged.lookup "format"
      = some (.obj [("primaryKey", .str "id"), ("type", .str "format")])
    ∧ inhLoadedMerged.lookup "format" ≠ some csvSchema :=
  ⟨rfl, rfl, by simp [inhLoadedMerged, csvSchema, Json.lookup, lookupEntry]⟩

/-- C4 amended: for a resource whose on-disk schema is the sentinel,
`load_resource` with format F yields a record whose `schema` is F's
schema tagged with `type = "format"`, and whose transient `format` field
holds the very same tagged object — not an untagged copy — because the
source aliases the two. -/
theorem load_resource_format_merge_aliased (fs : FS) (n f : String)
    (d : Bool) (lr : LoadedResource) (m fsm : List (String × Json))
    (fmtFile : Json)
    (hm : fs.read (.resource n) = some (.obj m))
    (hf : fs.read (.format f) = some fmtFile)
    (hfsch : fmtFile.lookup "schema" = some (.obj fsm))
    (hsch : lookupEntry m "schema" = some (.str "inherit-from-format"))
    (hload : loadResource fs n (some f) d = .ok lr) :
    lr.record.lookup "schema"
      = some (.obj (setEntry fsm "type" (.str "format")))
    ∧ lr.record.lookup "format"
      = some (.obj (setEntry fsm "type" (.str "format"))) := by
  rcases loadResource_format_record_inv fs n f d lr m fmtFile (.obj fsm)
      hm hf hfsch hload with ⟨fsm', hfs, hsen, hrec⟩ | ⟨sv, hsv, hb, _⟩
  · obtain rfl : fsm = fsm' := Json.obj.inj hfs
    rw [hrec]
    constructor
    · show lookupEntry _ "schema" = _
      rw [lookupEntry_setEntry_other _ "format" "schema" _ (by decide),
        lookupEntry_setEntry_self]
    · show lookupEntry _ "format" = _
      rw [lookupEntry_setEntry_self]
  · rw [hsv] at hsch
    obtain rfl : sv = .str "inherit-from-format" := by simpa using hsch
    simp [Json.eqStr] at hb

/-- Witness for C4 amended: the `inh`/`csv` merge, where both fields hold
the tagged csv schema. -/
theorem load_resource_format_merge_aliased_witness :
    (LoadedResource.dict inhLoadedMerged).record.lookup "schema"
      = some (.obj [("primaryKey", .str "id"), ("type", .str "format")])
    ∧ (LoadedResource.dict inhLoadedMerged).record.lookup "format"
      = some (.obj [("primaryKey", .str "id"), ("type", .str "format")]) :=
  load_resource_format_merge_aliased sampleFS "inh" "csv" true
    (.dict inhLoadedMerged) _ _ _ rfl rfl rfl rfl rfl

/-- C1: a resource loaded with a format name and written back is
persisted without a `format` field, and when the on-disk schema before
the load was the sentinel, the schema persisted by the write is the
sentinel again, not the copied format schema object. -/
theorem load_write_round_trip (fs fs₂ fs₃ : FS) (n f n₂ : String) (d : Bool)
    (m : List (String × Json)) (fmtFile fmtSchema : Json)
    (lr : LoadedResource) (now : Int)
    (hm : fs.read (.resource n) = some (.obj m))
    (hnd : (m.map Prod.fst).Nodup)
    (hname : lookupEntry m "name" = some (.str n₂))
    (hf : fs.read (.format f) = some fmtFile)
    (hfsch : fmtFile.lookup "schema" = some fmtSchema)
    (hload : loadResource fs n (some f) d = .ok lr)
    (hwrite : writeResource fs₂ lr.toValue now = .ok fs₃) :
    ∃ stored : Json, fs₃.read (.resource n₂) = some stored
      ∧ stored.lookup "format" = none
      ∧ (lookupEntry m "schema" = some (.str "inherit-from-format") →
          stored.lookup "schema" = some (.str "inherit-from-format")) := by
  rcases loadResource_format_record_inv fs n f d lr m fmtFile fmtSchema
      hm hf hfsch hload with ⟨fsm, hfs, hsen, hrec⟩ | ⟨sv, hsv, hb, hrec⟩
  · -- the on-disk schema was the sentinel
    have hrec' : lr.toValue.toRecord = .obj (setEntry (setEntry
        (setEntry m "format" fmtSchema) "schema"
        (.obj (setEntry fsm "type" (.str "format")))) "format"
        (.obj (setEntry fsm "type" (.str "format")))) := by
      rw [toValue_toRecord, hrec]
    have hndw := nodup_setEntry _ "format"
      (Json.obj (setEntry fsm "type" (.str "format")))
      (nodup_setEntry _ "schema" (Json.obj (setEntry fsm "type" (.str "format")))
        (nodup_setEntry m "format" fmtSchema hnd))
    have hnamew : lookupEntry (setEntry (setEntry
        (setEntry m "format" fmtSchema) "schema"
        (.obj (setEntry fsm "type" (.str "format")))) "format"
        (.obj (setEntry fsm "type" (.str "format")))) "name"
        = some (.str n₂) := by
      rw [lookupEntry_setEntry_other _ "format" "name" _ (by decide),
        lookupEntry_setEntry_other _ "schema" "name" _ (by decide),
        lookupEntry_setEntry_other _ "format" "name" _ (by decide)]
      exact hname
    obtain ⟨stored, hst, hfmt, hschimpl⟩ :=
      writeResource_ok_inv fs₂ fs₃ lr.toValue now _ n₂ hrec' hndw hnamew
        hwrite
    refine ⟨stored, hst, hfmt, fun _ => ?_⟩
    refine hschimpl (setEntry fsm "type" (.str "format")) ?_
      (lookupEntry_setEntry_self fsm "type" _)
    rw [lookupEntry_setEntry_other _ "format" "schema" _ (by decide),
      lookupEntry_setEntry_self]
  · -- the on-disk schema was not the sentinel: the implication is vacuous
    have hrec' : lr.toValue.toRecord = .obj (setEntry m "format" fmtSchema) := by
      rw [toValue_toRecord, hrec]
    have hndw := nodup_setEntry m "format" fmtSchema hnd
    have hnamew : lookupEntry (setEntry m "format" fmtSchema) "name"
        = some (.str n₂) := by
      rw [lookupEntry_setEntry_other _ "format" "name" _ (by decide)]
      exact hname
    obtain ⟨stored, hst, hfmt, _⟩ :=
      writeResource_ok_inv fs₂ fs₃ lr.toValue now _ n₂ hrec' hndw hnamew
        hwrite
    refine ⟨stored, hst, hfmt, fun hcon => ?_⟩
    rw [hsv] at hcon
    obtain rfl : sv = .str "inherit-from-format" := by simpa using hcon
    simp [Json.eqStr] at hb

/-- Witness for C1: the `inh`/`csv` round trip at time 200 stores a
record with no `format` field and the sentinel schema. -/
theorem load_write_round_trip_witness :
    ∃ stored : Json,
      (((sampleFS.write (.resource "inh") inhResource).write .datapackage
        (.obj [("updated", .num 200), ("title", .str "pkg")])).read
          (.resource "inh")) = some stored
      ∧ stored.lookup "format" = none
      ∧ stored.lookup "schema" = some (.str "inherit-from-format") := by
  obtain ⟨stored, h1, h2, h3⟩ := load_write_round_trip sampleFS sampleFS _
    "inh" "csv" "inh" true _ _ csvSchema (.dict inhLoadedMerged) 200
    rfl (by decide) rfl rfl rfl rfl rfl
  exact ⟨stored, h1, h2, h3 rfl⟩

end Opendatapy
